import Mathlib

/-!
Shallow embedding of the `float_equality_without_abs` clippy lint
(`clippy_lints/src/float_equality_without_abs.rs`).

The lint inspects one HIR expression at a time and flags comparisons of the
shape `(a - b) < f32::EPSILON` (or `f64::EPSILON`, or with `>` and the sides
swapped), suggesting to wrap the difference in `.abs()`.

The expression data model mirrors `rustc_hir::Expr` restricted to the variants
the lint distinguishes: `Binary`, `Path`, a method call (needed to represent
already-fixed expressions such as `(a - b).abs()`), and an opaque remainder.
Spans are opaque identifiers (`Nat`); the host's span-to-snippet subsystem is
modelled as an injected mapping from spans to optional source text.
-/

/-- Binary operator tags, mirroring `rustc_hir::BinOpKind`. -/
inductive BinOpKind where
  | add | sub | mul | div | rem
  | and | or
  | bitXor | bitAnd | bitOr
  | shl | shr
  | eq | lt | le | ne | ge | gt
deriving DecidableEq

/-- Applicability of a suggested fix, mirroring `rustc_errors::Applicability`. -/
inductive Applicability where
  | machineApplicable
  | maybeIncorrect
  | hasPlaceholders
  | unspecified
deriving DecidableEq

mutual
/-- An expression node: a span plus a kind, mirroring `rustc_hir::Expr`
(`expr.span`, `expr.kind`). -/
inductive Expr where
  | mk (span : Nat) (kind : ExprKind)

/-- Expression kinds, mirroring the `rustc_hir::ExprKind` variants the lint
distinguishes. Qualified paths are modelled by their segment names.
All variants the lint never inspects are collapsed into `other`. -/
inductive ExprKind where
  | binary (op : BinOpKind) (left right : Expr)
  | path (segments : List String)
  | methodCall (method : String) (receiver : Expr)
  | lit (value : String)
  | other
end

/-- Span of an expression node. -/
def Expr.span : Expr → Nat
  | Expr.mk s _ => s

/-- Kind of an expression node. -/
def Expr.kind : Expr → ExprKind
  | Expr.mk _ k => k

/-- A diagnostic record: span, message, fix label, replacement text and
applicability, as assembled by `span_lint_and_sugg`. -/
structure Finding where
  span : Nat
  message : String
  fixLabel : String
  suggestion : String
  applicability : Applicability
deriving DecidableEq

/-- Modelled from the spec: the host-owned span-to-text capability
(`LateContext` as far as this lint uses it). It maps a span to its original
source snippet, or to nothing when the text is unavailable. -/
def Context : Type := Nat → Option String

/-- Modelled from the spec: `clippy utils snippet` (not under `src/`) —
returns the source text for a span, or the supplied fallback text when the
snippet subsystem cannot provide one. -/
def snippet (ctx : Context) (span : Nat) (fallback : String) : String :=
  match ctx span with
  | some s => s
  | none => fallback

/-- Modelled from the spec: `clippy utils match_qpath` (not under `src/`) —
succeeds exactly when the path's segments equal the given segment list,
segment-wise (no prefix/suffix matching, no alias resolution). -/
def match_qpath (path : List String) (segments : List String) : Bool :=
  decide (path = segments)

/-- Modelled from the spec: `clippy utils span_lint_and_sugg` (not under
`src/`) — packages span, message, fix label, suggestion and applicability
into a Finding handed to the host's reporting sink; modelled as returning
the constructed Finding. -/
def span_lint_and_sugg (span : Nat) (message fixLabel suggestion : String)
    (applicability : Applicability) : Finding :=
  { span := span, message := message, fixLabel := fixLabel,
    suggestion := suggestion, applicability := applicability }

/-- Rust's `str::starts_with('(')`: true iff the first character of the
string is an opening parenthesis. -/
def startsWithParen (s : String) : Bool :=
  match s.data with
  | [] => false
  | c :: _ => decide (c = '(')

/-- The `if_chain!` body of `check_expr` (lines 61–91 of the source), run on
the already-dispatched candidate difference side `a_minus_b` and candidate
epsilon side `epsilon`: checks that the difference side is a bare `Sub`
binary, that the epsilon side is the path `f32::EPSILON` or `f64::EPSILON`,
and on success synthesizes the `.abs()` suggestion from the difference
snippet and emits the Finding on the whole expression's span. -/
def check_sides (ctx : Context) (exprSpan : Nat) (a_minus_b epsilon : Expr) :
    Option Finding :=
  match a_minus_b.kind with
  | ExprKind.binary op _a _b =>
    if BinOpKind.sub = op then
      match epsilon.kind with
      | ExprKind.path epsilon_path =>
        if match_qpath epsilon_path ["f32", "EPSILON"]
            || match_qpath epsilon_path ["f64", "EPSILON"] then
          let a_minus_b_string := snippet ctx a_minus_b.span "(...)"
          let suggestion :=
            match startsWithParen a_minus_b_string with
            | true => a_minus_b_string ++ ".abs()"
            | false => "(" ++ a_minus_b_string ++ ").abs()"
          some (span_lint_and_sugg
            exprSpan
            "float equality check without `.abs()`"
            "add `.abs()`"
            suggestion
            Applicability.maybeIncorrect)
        else none
      | _ => none
    else none
  | _ => none

/-- `FloatEqualityWithoutAbs::check_expr`: dispatch on the outer comparison
operator (`<` keeps the sides, `>` swaps them, anything else—or a non-binary
node—returns immediately), then run the `if_chain!` body. -/
def check_expr (ctx : Context) (expr : Expr) : Option Finding :=
  match expr.kind with
  | ExprKind.binary op left right =>
    if op = BinOpKind.lt then
      check_sides ctx expr.span left right
    else if op = BinOpKind.gt then
      check_sides ctx expr.span right left
    else
      none
  | _ => none

/-! Analysis-side restatements of the three stages, used to phrase the
claims; each mirrors one guard of `check_expr`. -/

/-- Stage 1 (Expression Matcher, comparison shape): the node is a binary
comparison whose operator is `<` or `>`. -/
def stageComparison (e : Expr) : Bool :=
  match e.kind with
  | ExprKind.binary op _ _ =>
    decide (op = BinOpKind.lt) || decide (op = BinOpKind.gt)
  | _ => false

/-- The candidate (difference, epsilon) pair the dispatch selects: `<` takes
(left, right), `>` takes (right, left). -/
def candSides (e : Expr) : Option (Expr × Expr) :=
  match e.kind with
  | ExprKind.binary op left right =>
    if op = BinOpKind.lt then some (left, right)
    else if op = BinOpKind.gt then some (right, left)
    else none
  | _ => none

/-- The candidate difference side is a bare `Sub` binary expression. -/
def isSubBinary (e : Expr) : Bool :=
  match e.kind with
  | ExprKind.binary op _ _ => decide (BinOpKind.sub = op)
  | _ => false

/-- The candidate epsilon side is a path equal to `f32::EPSILON` or
`f64::EPSILON`. -/
def isEpsilonPath (e : Expr) : Bool :=
  match e.kind with
  | ExprKind.path p =>
    match_qpath p ["f32", "EPSILON"] || match_qpath p ["f64", "EPSILON"]
  | _ => false

/-- Stage 2 (Expression Matcher, difference shape) on the whole node. -/
def stageSub (e : Expr) : Bool :=
  match candSides e with
  | some (d, _) => isSubBinary d
  | none => false

/-- Stage 3 (Symbolic Path Resolver) on the whole node. -/
def stageEpsilon (e : Expr) : Bool :=
  match candSides e with
  | some (_, eps) => isEpsilonPath eps
  | none => false

/-- The Suggestion Synthesizer on extracted text (lines 76–79 of the
source): append `.abs()` directly when the text starts with `(`, otherwise
wrap in one pair of parentheses first. -/
def suggestionText (s : String) : String :=
  match startsWithParen s with
  | true => s ++ ".abs()"
  | false => "(" ++ s ++ ").abs()"

/-! Concrete fixtures used by witnesses and counterexamples. Spans are
arbitrary distinct numbers; `fixCtx` is a snippet mapping with no source
text, `snippetCtx t` serves the text `t` for span 1. -/

/-- A snippet mapping that has no text for any span. -/
def fixCtx : Context := fun _ => none

/-- A snippet mapping that serves the text `t` for span 1 only. -/
def snippetCtx (t : String) : Context :=
  fun sp => if sp = 1 then some t else none

/-- The bare difference `a - b` (span 1). -/
def subDiff : Expr :=
  Expr.mk 1 (ExprKind.binary BinOpKind.sub
    (Expr.mk 2 (ExprKind.path ["a"]))
    (Expr.mk 3 (ExprKind.path ["b"])))

/-- The already-fixed difference `(a - b).abs()` (span 1): a method call
wrapping the subtraction, hence not a bare `Sub` binary node. -/
def fixDiff : Expr :=
  Expr.mk 1 (ExprKind.methodCall "abs"
    (Expr.mk 2 (ExprKind.binary BinOpKind.sub
      (Expr.mk 3 (ExprKind.path ["a"]))
      (Expr.mk 4 (ExprKind.path ["b"])))))

/-- The comparison `(a - b) < f32::EPSILON` (span 0). -/
def cmpExpr : Expr :=
  Expr.mk 0 (ExprKind.binary BinOpKind.lt subDiff
    (Expr.mk 5 (ExprKind.path ["f32", "EPSILON"])))

/-- The Finding the lint emits for `cmpExpr` under `fixCtx`: with no snippet
available the fallback text `(...)` is used, which already starts with `(`. -/
def cmpFinding : Finding :=
  { span := 0,
    message := "float equality check without `.abs()`",
    fixLabel := "add `.abs()`",
    suggestion := "(...).abs()",
    applicability := Applicability.maybeIncorrect }

/-- The difference side of `a - b.abs() < f32::EPSILON` as Rust parses it:
a method call binds tighter than a binary `-`, so this is the bare
subtraction `a - (b.abs())` (span 1). -/
def mixedDiff : Expr :=
  Expr.mk 1 (ExprKind.binary BinOpKind.sub
    (Expr.mk 2 (ExprKind.path ["a"]))
    (Expr.mk 3 (ExprKind.methodCall "abs" (Expr.mk 4 (ExprKind.path ["b"])))))

/-- The full comparison `a - b.abs() < f32::EPSILON` (span 0). -/
def mixedCmp : Expr :=
  Expr.mk 0 (ExprKind.binary BinOpKind.lt mixedDiff
    (Expr.mk 5 (ExprKind.path ["f32", "EPSILON"])))

/-- Snippet mapping serving the source text of `mixedDiff` at its span. -/
def mixedCtx : Context :=
  fun sp => if sp = 1 then some "a - b.abs()" else none

/-- The lint pass struct generated by `declare_lint_pass!`: it has no
fields, so the pass carries no state across invocations. -/
structure FloatEqualityWithoutAbs where
deriving DecidableEq

/-- The method `fn check_expr(&mut self, ctx, expr)` as a state-passing
function: the body never reads or writes `self`, so the (empty) state is
returned unchanged alongside the optional Finding. -/
def FloatEqualityWithoutAbs.checkExprSt (p : FloatEqualityWithoutAbs)
    (ctx : Context) (e : Expr) : FloatEqualityWithoutAbs × Option Finding :=
  (p, check_expr ctx e)

/-- The host traversal: hand each expression node in turn to the pass,
threading the pass state through the sequence of invocations. -/
def runPass (p : FloatEqualityWithoutAbs) (ctx : Context) :
    List Expr → FloatEqualityWithoutAbs × List (Option Finding)
  | [] => (p, [])
  | e :: rest =>
    let step := p.checkExprSt ctx e
    let tail := runPass step.1 ctx rest
    (tail.1, step.2 :: tail.2)

/-- Characterization of the `if_chain!` body: it emits exactly when the
difference side is a bare `Sub` binary and the epsilon side a recognized
epsilon path, and the emitted Finding is fully determined. -/
theorem check_sides_eq (ctx : Context) (sp : Nat) (d eps : Expr) :
    check_sides ctx sp d eps =
      if isSubBinary d && isEpsilonPath eps then
        some (span_lint_and_sugg sp
          "float equality check without `.abs()`"
          "add `.abs()`"
          (suggestionText (snippet ctx d.span "(...)"))
          Applicability.maybeIncorrect)
      else none := by
  obtain ⟨sd, kd⟩ := d
  obtain ⟨se, ke⟩ := eps
  cases kd with
  | binary op x y =>
    by_cases hop : BinOpKind.sub = op
    · cases ke with
      | path p =>
        by_cases hp : (match_qpath p ["f32", "EPSILON"]
            || match_qpath p ["f64", "EPSILON"]) = true
        · simp [check_sides, isSubBinary, isEpsilonPath, suggestionText,
            Expr.kind, Expr.span, hop, hp]
        · simp only [Bool.not_eq_true] at hp
          simp [check_sides, isSubBinary, isEpsilonPath,
            Expr.kind, Expr.span, hop, hp]
      | binary op2 u v =>
        simp [check_sides, isSubBinary, isEpsilonPath, Expr.kind, hop]
      | methodCall m r =>
        simp [check_sides, isSubBinary, isEpsilonPath, Expr.kind, hop]
      | lit v =>
        simp [check_sides, isSubBinary, isEpsilonPath, Expr.kind, hop]
      | other =>
        simp [check_sides, isSubBinary, isEpsilonPath, Expr.kind, hop]
    · simp [check_sides, isSubBinary, Expr.kind, hop]
  | path p => simp [check_sides, isSubBinary, Expr.kind]
  | methodCall m r => simp [check_sides, isSubBinary, Expr.kind]
  | lit v => simp [check_sides, isSubBinary, Expr.kind]
  | other => simp [check_sides, isSubBinary, Expr.kind]

/-- Characterization of the whole pass on one node. -/
theorem check_expr_eq (ctx : Context) (e : Expr) :
    check_expr ctx e =
      match candSides e with
      | some (d, eps) =>
        if isSubBinary d && isEpsilonPath eps then
          some (span_lint_and_sugg e.span
            "float equality check without `.abs()`"
            "add `.abs()`"
            (suggestionText (snippet ctx d.span "(...)"))
            Applicability.maybeIncorrect)
        else none
      | none => none := by
  obtain ⟨s, k⟩ := e
  cases k with
  | binary op l r =>
    by_cases h1 : op = BinOpKind.lt
    · simp [check_expr, candSides, Expr.kind, Expr.span, h1, check_sides_eq]
    · by_cases h2 : op = BinOpKind.gt
      · simp [check_expr, candSides, Expr.kind, Expr.span, h1, h2,
          check_sides_eq]
      · simp [check_expr, candSides, Expr.kind, h1, h2]
  | path p => simp [check_expr, candSides, Expr.kind]
  | methodCall m r => simp [check_expr, candSides, Expr.kind]
  | lit v => simp [check_expr, candSides, Expr.kind]
  | other => simp [check_expr, candSides, Expr.kind]

/-- Stage 1 succeeds exactly when the dispatch selects candidate sides. -/
theorem stageComparison_eq_isSome (e : Expr) :
    stageComparison e = (candSides e).isSome := by
  obtain ⟨s, k⟩ := e
  cases k with
  | binary op l r =>
    by_cases h1 : op = BinOpKind.lt
    · simp [stageComparison, candSides, Expr.kind, h1]
    · by_cases h2 : op = BinOpKind.gt
      · simp [stageComparison, candSides, Expr.kind, h1, h2]
      · simp [stageComparison, candSides, Expr.kind, h1, h2]
  | path p => simp [stageComparison, candSides, Expr.kind]
  | methodCall m r => simp [stageComparison, candSides, Expr.kind]
  | lit v => simp [stageComparison, candSides, Expr.kind]
  | other => simp [stageComparison, candSides, Expr.kind]

/-- Claim C1: a Finding is produced if and only if the three stages succeed
in sequence — the node is a `<`/`>` binary comparison, the candidate
difference side is a bare `Sub` binary, and the candidate epsilon side is a
matching epsilon path. In particular any other operator or non-binary node
yields no Finding, and the pass is a pure function, so a failed stage
produces no output at all. -/
theorem float_equality_c1 (ctx : Context) (e : Expr) :
    (check_expr ctx e).isSome
      = (stageComparison e && stageSub e && stageEpsilon e) := by
  rw [check_expr_eq, stageComparison_eq_isSome]
  cases hc : candSides e with
  | none => simp [stageSub, stageEpsilon, hc]
  | some deps =>
    obtain ⟨d, eps⟩ := deps
    by_cases hb : (isSubBinary d && isEpsilonPath eps) = true
    · simp [stageSub, stageEpsilon, hc, hb]
    · simp only [Bool.not_eq_true] at hb
      simp [stageSub, stageEpsilon, hc, hb]

/-- Claim C2: within the comparison shape, the candidate difference side
must be a bare `Sub` binary expression; any other node kind there — in
particular a method-call node such as `(a - b).abs()` wrapping the
subtraction — yields no Finding, in either orientation of the comparison. -/
theorem float_equality_c2 (ctx : Context) (s : Nat) (d eps : Expr)
    (h : isSubBinary d = false) :
    check_expr ctx (Expr.mk s (ExprKind.binary BinOpKind.lt d eps)) = none ∧
    check_expr ctx (Expr.mk s (ExprKind.binary BinOpKind.gt eps d)) = none := by
  constructor <;> simp [check_expr_eq, candSides, Expr.kind, h]

/-- Witness for C2 at the already-fixed expression
`(a - b).abs() < f32::EPSILON` (and its `>` mirror): no Finding. -/
theorem float_equality_c2_witness :
    check_expr fixCtx (Expr.mk 0 (ExprKind.binary BinOpKind.lt fixDiff
      (Expr.mk 5 (ExprKind.path ["f32", "EPSILON"])))) = none ∧
    check_expr fixCtx (Expr.mk 0 (ExprKind.binary BinOpKind.gt
      (Expr.mk 5 (ExprKind.path ["f32", "EPSILON"])) fixDiff)) = none :=
  float_equality_c2 fixCtx 0 fixDiff
    (Expr.mk 5 (ExprKind.path ["f32", "EPSILON"])) (by decide)

/-- Claim C3: once the comparison-with-subtraction shape matches, a Finding
is produced exactly when the epsilon side is a Path whose segments are
exactly `["f32","EPSILON"]` or `["f64","EPSILON"]` (so both constants
trigger, any other segment list does not), and a non-Path epsilon side
never produces a Finding. -/
theorem float_equality_c3 (ctx : Context) (s : Nat) (d : Expr)
    (h : isSubBinary d = true) :
    (∀ se segs,
      (check_expr ctx (Expr.mk s (ExprKind.binary BinOpKind.lt d
          (Expr.mk se (ExprKind.path segs))))).isSome
        = (decide (segs = ["f32", "EPSILON"])
            || decide (segs = ["f64", "EPSILON"]))) ∧
    (∀ se k, (∀ segs, k ≠ ExprKind.path segs) →
      check_expr ctx (Expr.mk s (ExprKind.binary BinOpKind.lt d
        (Expr.mk se k))) = none) := by
  constructor
  · intro se segs
    by_cases h32 : segs = ["f32", "EPSILON"]
    · simp [check_expr_eq, candSides, Expr.kind, h, isEpsilonPath,
        match_qpath, h32]
    · by_cases h64 : segs = ["f64", "EPSILON"]
      · simp [check_expr_eq, candSides, Expr.kind, h, isEpsilonPath,
          match_qpath, h64]
      · simp [check_expr_eq, candSides, Expr.kind, h, isEpsilonPath,
          match_qpath, h32, h64]
  · intro se k hk
    cases k with
    | path p => exact absurd rfl (hk p)
    | binary op l r => simp [check_expr_eq, candSides, Expr.kind, h, isEpsilonPath]
    | methodCall m r => simp [check_expr_eq, candSides, Expr.kind, h, isEpsilonPath]
    | lit v => simp [check_expr_eq, candSides, Expr.kind, h, isEpsilonPath]
    | other => simp [check_expr_eq, candSides, Expr.kind, h, isEpsilonPath]

/-- Witness for C3: `(a - b) < f32::EPSILON` is flagged, the near-miss path
`f32::MAX` is not, and a literal epsilon side is not. -/
theorem float_equality_c3_witness :
    (check_expr fixCtx (Expr.mk 0 (ExprKind.binary BinOpKind.lt subDiff
        (Expr.mk 5 (ExprKind.path ["f32", "EPSILON"]))))).isSome = true ∧
    (check_expr fixCtx (Expr.mk 0 (ExprKind.binary BinOpKind.lt subDiff
        (Expr.mk 5 (ExprKind.path ["f32", "MAX"]))))).isSome = false ∧
    check_expr fixCtx (Expr.mk 0 (ExprKind.binary BinOpKind.lt subDiff
        (Expr.mk 5 (ExprKind.lit "0.1")))) = none := by
  have h := float_equality_c3 fixCtx 0 subDiff (by decide)
  refine ⟨(h.1 5 ["f32", "EPSILON"]).trans (by decide),
    (h.1 5 ["f32", "MAX"]).trans (by decide),
    h.2 5 (ExprKind.lit "0.1") (fun segs hs => by cases hs)⟩

/-- Claim C4: on a successful match the replacement text is computed from
the extracted difference text: if it begins with `(` the result appends
`.abs()` directly, otherwise the text is wrapped in one pair of parentheses
first; in particular `a - b` becomes `(a - b).abs()` and `(a - b)` stays
`(a - b).abs()` without double-wrapping. -/
theorem float_equality_c4 (ctx : Context) (s sd se : Nat) (a b : Expr)
    (t : String) (h : ctx sd = some t) :
    check_expr ctx (Expr.mk s (ExprKind.binary BinOpKind.lt
        (Expr.mk sd (ExprKind.binary BinOpKind.sub a b))
        (Expr.mk se (ExprKind.path ["f32", "EPSILON"])))) =
      some { span := s,
             message := "float equality check without `.abs()`",
             fixLabel := "add `.abs()`",
             suggestion := if startsWithParen t then t ++ ".abs()"
                           else "(" ++ t ++ ").abs()",
             applicability := Applicability.maybeIncorrect } ∧
    suggestionText "a - b" = "(a - b).abs()" ∧
    suggestionText "(a - b)" = "(a - b).abs()" := by
  refine ⟨?_, by decide, by decide⟩
  simp only [check_expr_eq, candSides, Expr.kind, Expr.span, isSubBinary,
    isEpsilonPath, match_qpath, snippet, h, span_lint_and_sugg,
    suggestionText]
  cases hp : startsWithParen t <;> simp [snippet, h, hp, span_lint_and_sugg]

/-- Witness for C4 at difference text `a - b`: the suggestion is
`(a - b).abs()`. -/
theorem float_equality_c4_witness :
    check_expr (snippetCtx "a - b") (Expr.mk 0 (ExprKind.binary BinOpKind.lt
        (Expr.mk 1 (ExprKind.binary BinOpKind.sub
          (Expr.mk 2 (ExprKind.path ["a"]))
          (Expr.mk 3 (ExprKind.path ["b"]))))
        (Expr.mk 5 (ExprKind.path ["f32", "EPSILON"])))) =
      some { span := 0,
             message := "float equality check without `.abs()`",
             fixLabel := "add `.abs()`",
             suggestion := "(a - b).abs()",
             applicability := Applicability.maybeIncorrect } :=
  ((float_equality_c4 (snippetCtx "a - b") 0 1 5
      (Expr.mk 2 (ExprKind.path ["a"])) (Expr.mk 3 (ExprKind.path ["b"]))
      "a - b" rfl).1).trans (by decide)

/-- Claim C5: operator symmetry — `(a - b) < f32::EPSILON` and
`f32::EPSILON > (a - b)` produce the very same Finding (hence the same
flagged span and the same fix text), and both do produce one. -/
theorem float_equality_c5 (ctx : Context) (s sd se : Nat) (a b : Expr) :
    check_expr ctx (Expr.mk s (ExprKind.binary BinOpKind.lt
        (Expr.mk sd (ExprKind.binary BinOpKind.sub a b))
        (Expr.mk se (ExprKind.path ["f32", "EPSILON"])))) =
      check_expr ctx (Expr.mk s (ExprKind.binary BinOpKind.gt
        (Expr.mk se (ExprKind.path ["f32", "EPSILON"]))
        (Expr.mk sd (ExprKind.binary BinOpKind.sub a b)))) ∧
    (check_expr ctx (Expr.mk s (ExprKind.binary BinOpKind.lt
        (Expr.mk sd (ExprKind.binary BinOpKind.sub a b))
        (Expr.mk se (ExprKind.path ["f32", "EPSILON"]))))).isSome = true := by
  constructor
  · rfl
  · simp [check_expr_eq, candSides, Expr.kind, isSubBinary, isEpsilonPath,
      match_qpath]

/-- Claim C6: every emitted Finding carries exactly the span of the full
matched comparison expression, the fixed message, the fixed fix label,
applicability `MaybeIncorrect` (never `MachineApplicable`), and the
replacement text synthesized from the difference side's snippet. -/
theorem float_equality_c6 (ctx : Context) (e : Expr) (f : Finding)
    (h : check_expr ctx e = some f) :
    f.span = e.span ∧
    f.message = "float equality check without `.abs()`" ∧
    f.fixLabel = "add `.abs()`" ∧
    f.applicability = Applicability.maybeIncorrect ∧
    f.applicability ≠ Applicability.machineApplicable ∧
    ∃ d eps, candSides e = some (d, eps) ∧
      f.suggestion = suggestionText (snippet ctx d.span "(...)") := by
  rw [check_expr_eq] at h
  cases hc : candSides e with
  | none => rw [hc] at h; cases h
  | some deps =>
    obtain ⟨d, eps⟩ := deps
    rw [hc] at h
    simp only [] at h
    by_cases hb : (isSubBinary d && isEpsilonPath eps) = true
    · rw [if_pos hb] at h
      injection h with h
      subst h
      exact ⟨rfl, rfl, rfl, rfl, by simp [span_lint_and_sugg], d, eps, rfl, rfl⟩
    · rw [if_neg hb] at h; cases h

/-- Witness for C6 at `(a - b) < f32::EPSILON` with no snippet available:
the Finding has span 0 (the whole comparison), the fixed texts, the
fallback-based suggestion and applicability `MaybeIncorrect`. -/
theorem float_equality_c6_witness :
    cmpFinding.span = cmpExpr.span ∧
    cmpFinding.message = "float equality check without `.abs()`" ∧
    cmpFinding.fixLabel = "add `.abs()`" ∧
    cmpFinding.applicability = Applicability.maybeIncorrect ∧
    cmpFinding.applicability ≠ Applicability.machineApplicable ∧
    ∃ d eps, candSides cmpExpr = some (d, eps) ∧
      cmpFinding.suggestion = suggestionText (snippet fixCtx d.span "(...)") :=
  float_equality_c6 fixCtx cmpExpr cmpFinding (by decide)

/-- Claim C7 counterexample: for the statement
`let _ = a - b.abs() < f32::EPSILON;` the claim says no Finding is
produced; but Rust parses the left side as the bare subtraction
`a - (b.abs())` (a method call binds tighter than binary `-`), so the
difference side is a `Sub` binary node and the lint does emit a Finding. -/
theorem float_equality_c7_counterexample :
    check_expr mixedCtx mixedCmp ≠ none := by decide

/-- Claim C7 as amended: for source containing
`let _ = a - b.abs() < f32::EPSILON;` the `.abs()` call binds to `b`
alone, the difference side `a - b.abs()` is still a bare `Sub` binary, and
a Finding IS produced, with suggestion `(a - b.abs()).abs()`. -/
theorem float_equality_c7 :
    check_expr mixedCtx mixedCmp =
      some { span := 0,
             message := "float equality check without `.abs()`",
             fixLabel := "add `.abs()`",
             suggestion := "(a - b.abs()).abs()",
             applicability := Applicability.maybeIncorrect } := by decide

/-- Claim C8 (implicit): the parenthesization test looks only at the first
character of the extracted difference text, so any text beginning with `(`
gets `.abs()` appended verbatim — even when the leading parenthesis does
not enclose the whole text. -/
theorem float_equality_c8 (ctx : Context) (s sd se : Nat) (a b : Expr)
    (t : String) (hs : ctx sd = some t) (hp : startsWithParen t = true) :
    check_expr ctx (Expr.mk s (ExprKind.binary BinOpKind.lt
        (Expr.mk sd (ExprKind.binary BinOpKind.sub a b))
        (Expr.mk se (ExprKind.path ["f64", "EPSILON"])))) =
      some { span := s,
             message := "float equality check without `.abs()`",
             fixLabel := "add `.abs()`",
             suggestion := t ++ ".abs()",
             applicability := Applicability.maybeIncorrect } := by
  simp [check_expr_eq, candSides, Expr.kind, Expr.span, isSubBinary,
    isEpsilonPath, match_qpath, snippet, hs, suggestionText, hp,
    span_lint_and_sugg]

/-- Witness for C8 at difference text `(a) - b`: the leading parenthesis
does not enclose the whole text, yet the suggestion is `(a) - b.abs()`, in
which `.abs()` binds to `b` alone. -/
theorem float_equality_c8_witness :
    check_expr (snippetCtx "(a) - b") (Expr.mk 0 (ExprKind.binary
        BinOpKind.lt
        (Expr.mk 1 (ExprKind.binary BinOpKind.sub
          (Expr.mk 2 (ExprKind.path ["a"]))
          (Expr.mk 3 (ExprKind.path ["b"]))))
        (Expr.mk 5 (ExprKind.path ["f64", "EPSILON"])))) =
      some { span := 0,
             message := "float equality check without `.abs()`",
             fixLabel := "add `.abs()`",
             suggestion := "(a) - b.abs()",
             applicability := Applicability.maybeIncorrect } :=
  float_equality_c8 (snippetCtx "(a) - b") 0 1 5
    (Expr.mk 2 (ExprKind.path ["a"])) (Expr.mk 3 (ExprKind.path ["b"]))
    "(a) - b" rfl (by decide)

/-- Claim C9 (implicit): when no snippet is available for the difference
side, the fallback text `(...)` is used; it begins with `(`, so the emitted
suggestion is exactly `(...).abs()` and a Finding is still emitted rather
than suppressed. -/
theorem float_equality_c9 (ctx : Context) (s sd se : Nat) (a b : Expr)
    (h : ctx sd = none) :
    check_expr ctx (Expr.mk s (ExprKind.binary BinOpKind.lt
        (Expr.mk sd (ExprKind.binary BinOpKind.sub a b))
        (Expr.mk se (ExprKind.path ["f32", "EPSILON"])))) =
      some { span := s,
             message := "float equality check without `.abs()`",
             fixLabel := "add `.abs()`",
             suggestion := "(...).abs()",
             applicability := Applicability.maybeIncorrect } := by
  have hp : startsWithParen "(...)" = true := by decide
  simp [check_expr_eq, candSides, Expr.kind, Expr.span, isSubBinary,
    isEpsilonPath, match_qpath, snippet, h, suggestionText, hp,
    span_lint_and_sugg]

/-- Witness for C9: with the empty snippet mapping, `(a - b) < f32::EPSILON`
still yields a Finding whose suggestion is `(...).abs()`. -/
theorem float_equality_c9_witness :
    check_expr fixCtx (Expr.mk 0 (ExprKind.binary BinOpKind.lt
        (Expr.mk 1 (ExprKind.binary BinOpKind.sub
          (Expr.mk 2 (ExprKind.path ["a"]))
          (Expr.mk 3 (ExprKind.path ["b"]))))
        (Expr.mk 5 (ExprKind.path ["f32", "EPSILON"])))) =
      some { span := 0,
             message := "float equality check without `.abs()`",
             fixLabel := "add `.abs()`",
             suggestion := "(...).abs()",
             applicability := Applicability.maybeIncorrect } :=
  float_equality_c9 fixCtx 0 1 5
    (Expr.mk 2 (ExprKind.path ["a"])) (Expr.mk 3 (ExprKind.path ["b"])) rfl

/-- Claim C10: the pass is stateless and deterministic — running the
traversal over any list of expressions leaves the (fieldless) pass state
unchanged, and each emitted result is the pure per-expression function of
the node and the snippet mapping, so any two snippet mappings that agree
pointwise produce identical Findings, independent of earlier invocations. -/
theorem float_equality_c10 (p : FloatEqualityWithoutAbs) (ctx ctx' : Context)
    (es : List Expr) (h : ∀ sp, ctx sp = ctx' sp) :
    runPass p ctx es = (p, es.map (check_expr ctx')) := by
  have hc : ctx = ctx' := funext h
  subst hc
  induction es with
  | nil => rfl
  | cons e rest ih => simp [runPass, FloatEqualityWithoutAbs.checkExprSt, ih]

/-- Witness for C10: a two-node traversal (a match followed by a non-match)
returns the state unchanged and exactly the per-expression results. -/
theorem float_equality_c10_witness :
    runPass {} fixCtx [cmpExpr, Expr.mk 9 ExprKind.other] =
      ({}, [some cmpFinding, none]) :=
  (float_equality_c10 {} fixCtx fixCtx [cmpExpr, Expr.mk 9 ExprKind.other]
    (fun _ => rfl)).trans (by decide)
